import Mathlib

/-
  Verification development for the Alertmanager configuration editor view
  (src/packages/app/src/client/views/cluster/AlertmanagerConfigEditor.tsx).

  The embedding models:
  * `validationCheck` — one validation attempt: marker short-circuit, YAML
    parse (`yamlParser.load` under a try/catch), schema validation
    (`alertmanagerConfigSchema.validate`, whose promise outcome is collapsed
    to a boolean verdict via the then/catch handlers);
  * the timing behaviour of `handleConfigChange`, which on every change event
    creates two fresh lodash `debounce` wrappers and invokes each exactly once;
  * an operational timeline semantics recording which text each executed
    validation attempt reads from the mutable `configRef`;
  * the rendered view (publish button, error panel, skeleton) and the
    `handleSave` publish action.
-/

namespace AlertmanagerConfigEditorModel

/-- A structural problem the editor widget reports for a document
(a Monaco model marker). -/
structure Marker where
  message : String
deriving DecidableEq

/-- Mirrors the source type `validationCheckOptions = { useModelMarkers: boolean }`. -/
structure validationCheckOptions where
  useModelMarkers : Bool
deriving DecidableEq

/-- Mirrors `AlertmanagerUpdateResponse`: the remote validation result carried in
form data, with a `success` flag and an optional raw error payload
(`error_raw_response`). -/
structure AlertmanagerUpdateResponse where
  success : Bool
  error_raw_response : Option String
deriving DecidableEq

/-- External collaborators of one validation attempt:
`getModelMarkers` models `editor.getModelMarkers({resource: monaco.Uri.parse(filename)})`,
`parse` models `yamlParser.load` (returning parsed data or the caught parse
exception), and `validate` models the outcome of the
`alertmanagerConfigSchema.validate` promise (`true` when the `.then` handler
runs, `false` when the `.catch` handler runs). -/
structure ValidationEnv (δ : Type) where
  getModelMarkers : String → List Marker
  parse : String → Except String δ
  validate : δ → Bool

/-- Observable outcome of one run of `validationCheck`: the boolean verdict
written through `setConfigValid`, and how many times the marker query, the
parser and the schema validator were invoked during the attempt. -/
structure AttemptResult where
  verdict : Bool
  markerQueryCalls : Nat
  parseCalls : Nat
  validateCalls : Nat
deriving DecidableEq

/-- The marker list `validationCheck` computes:
`options?.useModelMarkers ? editor.getModelMarkers(...) : []`. -/
def queriedMarkers {δ : Type} (env : ValidationEnv δ) (filename : String)
    (options : Option validationCheckOptions) : List Marker :=
  if (options.map (fun o => o.useModelMarkers)).getD false then
    env.getModelMarkers filename
  else
    []

/-- One validation attempt, translated from the body of `validationCheck`
(lines 76–106 of the source).  If the queried marker list is empty the text is
parsed from `configRef.current`; a successful parse feeds the schema validator
whose promise outcome becomes the verdict, and a parse exception is caught
locally and mapped to an invalid verdict.  A non-empty marker list
short-circuits to an invalid verdict.  Totality of this function embeds the
fact that no exception escapes the attempt. -/
def validationCheck {δ : Type} (env : ValidationEnv δ) (configRefCurrent : String)
    (filename : String) (options : Option validationCheckOptions) : AttemptResult :=
  let markerQueryCalls :=
    if (options.map (fun o => o.useModelMarkers)).getD false then 1 else 0
  if (queriedMarkers env filename options).length = 0 then
    match env.parse configRefCurrent with
    | Except.ok parsedData =>
        ⟨env.validate parsedData, markerQueryCalls, 1, 1⟩
    | Except.error _ =>
        ⟨false, markerQueryCalls, 1, 0⟩
  else
    ⟨false, markerQueryCalls, 0, 0⟩

/-- The attempt performed by the leading debounced path: line 117 of the source,
`validationCheckOnChangeStart(filename)`, passes only the filename, so the
`options` parameter of `validationCheck` is undefined. -/
def leadingValidationAttempt {δ : Type} (env : ValidationEnv δ)
    (configRefCurrent filename : String) : AttemptResult :=
  validationCheck env configRefCurrent filename none

/-- The attempt performed by the trailing debounced path: line 118 of the source,
`checkValidationOnChangePause(filename)`, likewise passes only the filename,
so the `options` parameter of `validationCheck` is undefined. -/
def trailingValidationAttempt {δ : Type} (env : ValidationEnv δ)
    (configRefCurrent filename : String) : AttemptResult :=
  validationCheck env configRefCurrent filename none

/-- Options of a lodash `debounce` wrapper as configured in the source
(wait in milliseconds, the leading and trailing flags, and the optional
maxWait bound). -/
structure DebounceOptions where
  wait : Nat
  leadingFlag : Bool
  trailingFlag : Bool
  maxWait : Option Nat
deriving DecidableEq

/-- Options of `validationCheckOnChangeStart` (line 108):
`debounce(validationCheck, 300, { leading: true, trailing: false })`. -/
def validationCheckOnChangeStartOptions : DebounceOptions :=
  ⟨300, true, false, none⟩

/-- Options of `checkValidationOnChangePause` (line 112):
`debounce(validationCheck, 500, { maxWait: 5000 })`; lodash defaults are
leading `false` and trailing `true`. -/
def checkValidationOnChangePauseOptions : DebounceOptions :=
  ⟨500, false, true, some 5000⟩

/-- Times at which a lodash-debounced function invokes its wrapped function
when the debounce instance receives exactly one invocation, at time `t`, and
is never invoked again.  This is the situation in `handleConfigChange`, which
constructs fresh debounce wrappers on every call and calls each once.  With
`leading: true` lodash invokes the wrapped function immediately at `t`; with
`trailing: true` it invokes it at `t + wait` once the wait elapses with no
further call (`maxWait` never shortens a single-invocation burst, because
lodash raises `maxWait` to at least `wait`). -/
def debounceSingleInvokeFires (opts : DebounceOptions) (t : Nat) : List Nat :=
  (if opts.leadingFlag then [t] else []) ++
    (if opts.trailingFlag then [t + opts.wait] else [])

/-- One document-change event delivered to `handleConfigChange`: the time in
milliseconds, the new editor text (`newConfig`) and the document `filename`. -/
structure ChangeEvent where
  time : Nat
  newConfig : String
  filename : String
deriving DecidableEq

/-- One scheduled or executed run of `validationCheck`: when it runs, for which
document, and whether it came from the leading wrapper
(`validationCheckOnChangeStart`) or the trailing one
(`checkValidationOnChangePause`). -/
structure ValidationFire where
  time : Nat
  filename : String
  fromLeading : Bool
deriving DecidableEq

/-- The validation runs produced by one call of `handleConfigChange` at event
`e`: the body (lines 108–118) creates a fresh leading debounce wrapper and a
fresh trailing debounce wrapper and invokes each exactly once with
`e.filename`, so each wrapper contributes its single-invocation fires. -/
def handleConfigChangeFires (e : ChangeEvent) : List ValidationFire :=
  (debounceSingleInvokeFires validationCheckOnChangeStartOptions e.time).map
      (fun t => ⟨t, e.filename, true⟩) ++
    (debounceSingleInvokeFires checkValidationOnChangePauseOptions e.time).map
      (fun t => ⟨t, e.filename, false⟩)

/-- All validation runs produced by a sequence of change events (each event
independently contributes the fires of its own fresh debounce wrappers). -/
def traceFires (events : List ChangeEvent) : List ValidationFire :=
  events.flatMap handleConfigChangeFires

/-- Times of the leading-path validation runs falling in the window
`[lo, hi)`. -/
def leadingFireTimesIn (events : List ChangeEvent) (lo hi : Nat) : List Nat :=
  ((traceFires events).filter
      (fun f => f.fromLeading && (decide (lo ≤ f.time) && decide (f.time < hi)))).map
    (fun f => f.time)

/-- Times of the trailing-path validation runs of a trace. -/
def trailingFireTimes (events : List ChangeEvent) : List Nat :=
  ((traceFires events).filter (fun f => !f.fromLeading)).map (fun f => f.time)

/-- A burst of ten edits five milliseconds apart (all within 50ms, hence well
inside a single 300ms window). -/
def burst10 : List ChangeEvent :=
  [⟨0, "c0", "alertmanager-config.yaml"⟩, ⟨5, "c1", "alertmanager-config.yaml"⟩,
   ⟨10, "c2", "alertmanager-config.yaml"⟩, ⟨15, "c3", "alertmanager-config.yaml"⟩,
   ⟨20, "c4", "alertmanager-config.yaml"⟩, ⟨25, "c5", "alertmanager-config.yaml"⟩,
   ⟨30, "c6", "alertmanager-config.yaml"⟩, ⟨35, "c7", "alertmanager-config.yaml"⟩,
   ⟨40, "c8", "alertmanager-config.yaml"⟩, ⟨45, "c9", "alertmanager-config.yaml"⟩]

/-- Two edits 100ms apart followed by a pause (no further edits). -/
def twoEditsThenPause : List ChangeEvent :=
  [⟨0, "a", "alertmanager-config.yaml"⟩, ⟨100, "b", "alertmanager-config.yaml"⟩]

/-- One step of the single-threaded UI event loop relevant to the pipeline:
either a change event runs (`handleConfigChange` first assigns
`configRef.current = newConfig`, line 116), or a scheduled `validationCheck`
run fires. -/
inductive Action where
  | change (time : Nat) (newConfig : String) (filename : String)
  | fire (time : Nat) (filename : String) (fromLeading : Bool)
deriving DecidableEq

/-- The time of an action. -/
def Action.time : Action → Nat
  | Action.change t _ _ => t
  | Action.fire t _ _ => t

/-- Ordering rank at equal times: a change event's synchronous `configRef`
assignment precedes any validation run at the same instant (in particular the
leading fire, which runs synchronously inside the same handler call after the
assignment). -/
def Action.rank : Action → Nat
  | Action.change _ _ _ => 0
  | Action.fire _ _ _ => 1

/-- Event-loop order on actions: earlier times first; at equal times, change
events before fires. -/
def keyLeP (a b : Action) : Prop :=
  a.time < b.time ∨ (a.time = b.time ∧ a.rank ≤ b.rank)

instance : DecidableRel keyLeP := fun a b => by
  unfold keyLeP
  exact inferInstance

/-- The change event an action carries, if it is one. -/
def Action.asChange : Action → Option ChangeEvent
  | Action.change t c fn => some ⟨t, c, fn⟩
  | Action.fire _ _ _ => none

/-- The change events of a timeline, in order. -/
def changesOf (tl : List Action) : List ChangeEvent :=
  tl.filterMap Action.asChange

/-- A validation run that has executed, together with the text it actually
read from `configRef.current` at execution time (`yamlParser.load(configRef.current, ...)`,
line 88: the scheduled check carries only the filename, never the text). -/
structure FireRecord where
  time : Nat
  filename : String
  fromLeading : Bool
  textValidated : String
deriving DecidableEq

/-- State of the event-loop run: the current value of the mutable
`configRef`, and the validation runs executed so far. -/
structure RunState where
  config : String
  executed : List FireRecord
deriving DecidableEq

/-- One event-loop step: a change event synchronously overwrites
`configRef.current`; a fire executes `validationCheck`, reading the text from
the current `configRef` at that moment. -/
def step (s : RunState) : Action → RunState
  | Action.change _ newConfig _ => ⟨newConfig, s.executed⟩
  | Action.fire t fn ld => ⟨s.config, s.executed ++ [⟨t, fn, ld, s.config⟩]⟩

/-- Run a timeline of actions from the initial `configRef` value
(`useRef(alertmanager?.config || "")`, line 71). -/
def run (init : String) (tl : List Action) : RunState :=
  tl.foldl step ⟨init, []⟩

/-- The value held by `configRef.current` at time `t`: the result of replaying
every assignment made by a change event no later than `t` over the initial
value. -/
def configRefAt (events : List ChangeEvent) (init : String) (t : Nat) : String :=
  events.foldl (fun acc e => if e.time ≤ t then e.newConfig else acc) init

/-- A timeline used as concrete witness input: two edits, their synchronous
leading fires, and their trailing fires 500ms later; the trailing fire
scheduled by the first edit executes after the second edit. -/
def tlC6 : List Action :=
  [Action.change 0 "a" "alertmanager-config.yaml",
   Action.fire 0 "alertmanager-config.yaml" true,
   Action.change 10 "b" "alertmanager-config.yaml",
   Action.fire 10 "alertmanager-config.yaml" true,
   Action.fire 500 "alertmanager-config.yaml" false,
   Action.fire 510 "alertmanager-config.yaml" false]

/-- Mirrors the tenant record: only its `name` matters to this view
(`tenant?.name` truthiness and the dispatch payload). -/
structure Tenant where
  name : String
deriving DecidableEq

/-- Mirrors the alertmanager record: its stored `config` text and optional
`header` (both read through `alertmanager?.`). -/
structure Alertmanager where
  config : String
  header : Option String
deriving DecidableEq

/-- The component's mutable state: the `configRef` cell and the value stored in
the `configValid` React state cell — whose value slot is discarded at creation
(`const [, setConfigValid] = useState<boolean | null>(null)`, line 72), so only
the setter is ever bound. -/
structure EditorState where
  configRef : String
  configValid : Option Bool
deriving DecidableEq

/-- Payload of the `updateAlertmanager` action dispatched by `handleSave`. -/
structure UpdateAlertmanagerAction where
  tenantId : String
  header : String
  config : String
  formId : String
deriving DecidableEq

/-- Models `alertmanager?.header || ""`: empty when the record is absent or its
header is absent. -/
def headerOrEmpty (alertmanager : Option Alertmanager) : String :=
  match alertmanager with
  | none => ""
  | some a => a.header.getD ""

/-- The publish action (`handleSave`, lines 121–132): when `tenant?.name` is
truthy (the tenant exists and its name is non-empty) it dispatches exactly one
`updateAlertmanager` action carrying the tenant name, the header defaulted to
the empty string, the current `configRef` text and the form id; otherwise it
dispatches nothing.  It never writes the component state, which the returned
first component makes explicit. -/
def handleSave (s : EditorState) (tenant : Option Tenant)
    (alertmanager : Option Alertmanager) (formId : String) :
    EditorState × List UpdateAlertmanagerAction :=
  match tenant with
  | none => (s, [])
  | some t =>
    if t.name = "" then (s, [])
    else (s, [⟨t.name, headerOrEmpty alertmanager, s.configRef, formId⟩])

/-- What the error panel renders: a fixed title and the raw error payload. -/
structure ErrorPanelView where
  title : String
  content : Option String
deriving DecidableEq

/-- The `ErrorPanel` component (lines 188–197): `CondRender unless={response.success}`
renders the error header and `response.error_raw_response` exactly when
`success` is false. -/
def ErrorPanel (response : AlertmanagerUpdateResponse) : Option ErrorPanelView :=
  if response.success then none
  else some ⟨"Error: Service side validation failed", response.error_raw_response⟩

/-- Observable content of the non-skeleton view: the card title, whether the
publish button is disabled, and the error panel. -/
structure EditorViewRender where
  title : String
  publishDisabled : Bool
  errorPanel : Option ErrorPanelView
deriving DecidableEq

/-- The rendered output of the component: a skeleton when no tenant resolves,
otherwise the editor card. -/
inductive RenderedView where
  | skeleton
  | view (v : EditorViewRender)
deriving DecidableEq

/-- The render path of `AlertmanagerConfigEditor` (lines 134–181): without a
tenant only a skeleton renders; otherwise the card renders with the publish
button disabled exactly when `formState.status !== "active"` (line 171) and
the error panel fed with `formState.data.remoteValidation` (line 176).  The
`configValid` parameter is the value held by the verdict state cell; the
source discards it at destructuring, so no part of the body can mention it. -/
def render (tenant : Option Tenant) (formStatus : String)
    (remoteValidation : AlertmanagerUpdateResponse)
    (_configValid : Option Bool) : RenderedView :=
  match tenant with
  | none => RenderedView.skeleton
  | some t =>
    RenderedView.view
      ⟨t.name ++ " / Alertmanager Configuration",
       formStatus != "active",
       ErrorPanel remoteValidation⟩

/-- The publish button's disabled flag, when the view is not a skeleton. -/
def RenderedView.publishDisabledOf : RenderedView → Option Bool
  | RenderedView.skeleton => none
  | RenderedView.view v => some v.publishDisabled

/-- A concrete environment in which the editor reports one marker for every
document, parsing always succeeds, and the schema validator accepts. -/
def envWithMarkers : ValidationEnv Unit :=
  ⟨fun _ => [⟨"schema problem"⟩], fun _ => Except.ok (), fun _ => true⟩

/-- A concrete environment with no markers whose parser always fails. -/
def envParseFails : ValidationEnv Unit :=
  ⟨fun _ => [], fun _ => Except.error "unexpected token", fun _ => true⟩

/- Helper lemmas about the event-loop semantics. -/

/-- The change events of a concatenated timeline. -/
theorem changesOf_append (l1 l2 : List Action) :
    changesOf (l1 ++ l2) = changesOf l1 ++ changesOf l2 := by
  simp [changesOf]

/-- Running one more action is one more step. -/
theorem run_append (init : String) (tl : List Action) (a : Action) :
    run init (tl ++ [a]) = step (run init tl) a := by
  simp [run, List.foldl_append]

/-- The `configRef` value after a run replays exactly the assignments of the
timeline's change events. -/
theorem run_config_eq (tl : List Action) (s : RunState) :
    (tl.foldl step s).config
      = (changesOf tl).foldl (fun _ e => e.newConfig) s.config := by
  induction tl generalizing s with
  | nil => rfl
  | cons a rest ih =>
    cases a with
    | change t c fn =>
      simp [changesOf, Action.asChange, step, ih]
    | fire t fn ld =>
      simp [changesOf, Action.asChange, step, ih]

/-- When every event of the list happened no later than `t`, the `configRef`
value at `t` is the replay of all assignments. -/
theorem configRefAt_all_le (t : Nat) :
    ∀ (events : List ChangeEvent) (init : String),
      (∀ e ∈ events, e.time ≤ t) →
      configRefAt events init t = events.foldl (fun _ e => e.newConfig) init := by
  intro events
  induction events with
  | nil => intro init _; rfl
  | cons e es ih =>
    intro init h
    have he : e.time ≤ t := h e (List.mem_cons_self e es)
    have hstep : configRefAt (e :: es) init t = configRefAt es e.newConfig t := by
      simp [configRefAt, he]
    rw [hstep, ih e.newConfig (fun x hx => h x (List.mem_cons_of_mem e hx))]
    simp

/-- Every change event of a timeline sorted up to a fire at time `t` happened
no later than `t`. -/
theorem changes_le_of_sorted_fire (tl : List Action) (t : Nat) (fn : String)
    (ld : Bool) (hall : ∀ b ∈ tl, keyLeP b (Action.fire t fn ld)) :
    ∀ e ∈ changesOf tl, e.time ≤ t := by
  intro e he
  rcases List.mem_filterMap.mp he with ⟨act, hact, hsome⟩
  cases act with
  | change t' c' fn' =>
    have het : e.time = t' := by
      simp [Action.asChange] at hsome
      rw [← hsome]
    rcases hall _ hact with hlt | ⟨heq, _⟩
    · exact het ▸ Nat.le_of_lt hlt
    · exact het ▸ Nat.le_of_eq heq
  | fire t' fn' ld' =>
    simp [Action.asChange] at hsome

/-- C6: every executed validation run reads the document text from the mutable
`configRef` at the moment it executes, not from a value captured when it was
scheduled.  For any event-loop timeline sorted in event-loop order (changes
precede fires at the same instant, reflecting that `configRef.current` is
assigned synchronously before either debounced wrapper is invoked), every
executed check validates exactly the `configRef` value current at its fire
time — the text of the latest change event no later than the fire.  In
particular a check firing after further edits validates the latest text. -/
theorem scheduled_checks_read_latest_config (init : String) (tl : List Action) :
    tl.Pairwise keyLeP →
    ∀ r ∈ (run init tl).executed,
      Action.fire r.time r.filename r.fromLeading ∈ tl ∧
      r.textValidated = configRefAt (changesOf tl) init r.time := by
  induction tl using List.reverseRecOn with
  | nil =>
    intro _ r hr
    simp [run] at hr
  | append_singleton tl a ih =>
    intro hsorted r hr
    have hp := List.pairwise_append.mp hsorted
    have htl : tl.Pairwise keyLeP := hp.1
    have hall : ∀ b ∈ tl, keyLeP b a := fun b hb =>
      hp.2.2 b hb a (List.mem_singleton_self a)
    rw [run_append] at hr
    cases a with
    | change t c fn =>
      have hr' : r ∈ (run init tl).executed := by
        simpa [step] using hr
      obtain ⟨hmem, htext⟩ := ih htl r hr'
      refine ⟨List.mem_append_left _ hmem, ?_⟩
      have hk := hall _ hmem
      have hlt : r.time < t := by
        rcases hk with h1 | ⟨_, h2⟩
        · exact h1
        · simp [Action.rank] at h2
      rw [changesOf_append]
      have hone : changesOf [Action.change t c fn] = [⟨t, c, fn⟩] := rfl
      rw [hone]
      have hdrop : configRefAt (changesOf tl ++ [⟨t, c, fn⟩]) init r.time
          = configRefAt (changesOf tl) init r.time := by
        simp [configRefAt, List.foldl_append, Nat.not_le.mpr hlt]
      rw [hdrop]
      exact htext
    | fire t fn ld =>
      have hexec : (step (run init tl) (Action.fire t fn ld)).executed
          = (run init tl).executed ++ [⟨t, fn, ld, (run init tl).config⟩] := rfl
      rw [hexec] at hr
      have hnochange : changesOf (tl ++ [Action.fire t fn ld]) = changesOf tl := by
        rw [changesOf_append]
        simp [changesOf, Action.asChange]
      rcases List.mem_append.mp hr with hold | hnew
      · obtain ⟨hmem, htext⟩ := ih htl r hold
        exact ⟨List.mem_append_left _ hmem, by rw [hnochange]; exact htext⟩
      · have hr_eq : r = ⟨t, fn, ld, (run init tl).config⟩ :=
          List.mem_singleton.mp hnew
        subst hr_eq
        refine ⟨List.mem_append_right _ (List.mem_singleton_self _), ?_⟩
        rw [hnochange]
        have hle : ∀ e ∈ changesOf tl, e.time ≤ t :=
          changes_le_of_sorted_fire tl t fn ld hall
        show (run init tl).config = configRefAt (changesOf tl) init t
        rw [configRefAt_all_le t (changesOf tl) init hle]
        exact run_config_eq tl ⟨init, []⟩

/-- Witness for C6 at a concrete timeline: the trailing check scheduled by the
first edit fires at 500ms, after the second edit, and validates the second
edit's text "b" — the latest text, not the text at schedule time. -/
theorem scheduled_checks_read_latest_config_witness :
    tlC6.Pairwise keyLeP ∧
    (⟨500, "alertmanager-config.yaml", false, "b"⟩ : FireRecord)
        ∈ (run "" tlC6).executed ∧
    (⟨500, "alertmanager-config.yaml", false, "b"⟩ : FireRecord).textValidated
        = configRefAt (changesOf tlC6) "" 500 :=
  ⟨by decide, by decide,
    (scheduled_checks_read_latest_config "" tlC6 (by decide)
      ⟨500, "alertmanager-config.yaml", false, "b"⟩ (by decide)).2⟩

/-- C1 (evaluation at the failing input): in a burst of ten edits five
milliseconds apart — all inside one 300ms window — the leading-edge validation
runs ten times, once per edit, not once per window.  `handleConfigChange`
constructs a fresh leading debounce wrapper on every call and invokes it once,
so the leading edge of every fresh wrapper fires immediately. -/
theorem leading_fires_once_per_edit_in_burst :
    leadingFireTimesIn burst10 0 300 = [0, 5, 10, 15, 20, 25, 30, 35, 40, 45] ∧
    (leadingFireTimesIn burst10 0 300).length = 10 := by
  constructor <;> rfl

/-- C2 (evaluation at the failing input): after two edits 100ms apart followed
by a pause, the trailing validation runs twice — at 500ms and at 600ms, once
per edit — rather than exactly once after the 500ms pause, because
`handleConfigChange` constructs a fresh trailing debounce wrapper on every
call and invokes it once. -/
theorem trailing_fires_once_per_edit_after_pause :
    trailingFireTimes twoEditsThenPause = [500, 600] ∧
    (trailingFireTimes twoEditsThenPause).length = 2 := by
  constructor <;> rfl

/-- C3 counterexample: a concrete trailing-path validation attempt performs
zero marker queries even though the editor holds a marker for the document —
the trailing call passes only the filename, so `useModelMarkers` is unset and
`editor.getModelMarkers` is never consulted. -/
theorem trailing_attempt_no_marker_query_cex :
    (trailingValidationAttempt envWithMarkers "receivers: x"
        "alertmanager-config.yaml").markerQueryCalls = 0 ∧
    envWithMarkers.getModelMarkers "alertmanager-config.yaml" ≠ [] := by
  refine ⟨rfl, ?_⟩
  decide

/-- C3 amended: no trailing validation attempt ever queries the editor's
markers: `checkValidationOnChangePause` is invoked with only the filename
(line 118), so the `options` parameter of `validationCheck` is undefined,
`useModelMarkers` is never set, and the marker list defaults to empty. -/
theorem trailing_attempt_never_queries_markers {δ : Type} (env : ValidationEnv δ)
    (cfg fn : String) :
    (trailingValidationAttempt env cfg fn).markerQueryCalls = 0 ∧
    queriedMarkers env fn none = [] := by
  refine ⟨?_, rfl⟩
  unfold trailingValidationAttempt validationCheck
  cases h : env.parse cfg <;> simp [queriedMarkers, h]

/-- C4: any validation attempt whose queried marker list is non-empty
short-circuits: the verdict is invalid and neither the parser nor the schema
validator is invoked. -/
theorem marker_shortcircuit {δ : Type} (env : ValidationEnv δ)
    (cfg fn : String) (options : Option validationCheckOptions)
    (h : queriedMarkers env fn options ≠ []) :
    (validationCheck env cfg fn options).verdict = false ∧
    (validationCheck env cfg fn options).parseCalls = 0 ∧
    (validationCheck env cfg fn options).validateCalls = 0 := by
  have hlen : ¬((queriedMarkers env fn options).length = 0) := by
    simpa [List.length_eq_zero] using h
  unfold validationCheck
  simp [hlen]

/-- Witness for C4: with the editor reporting a marker and marker collection
requested, the attempt returns an invalid verdict with zero parse and zero
validate calls. -/
theorem marker_shortcircuit_witness :
    queriedMarkers envWithMarkers "alertmanager-config.yaml" (some ⟨true⟩) ≠ [] ∧
    ((validationCheck envWithMarkers "route: x" "alertmanager-config.yaml"
        (some ⟨true⟩)).verdict = false ∧
      (validationCheck envWithMarkers "route: x" "alertmanager-config.yaml"
        (some ⟨true⟩)).parseCalls = 0 ∧
      (validationCheck envWithMarkers "route: x" "alertmanager-config.yaml"
        (some ⟨true⟩)).validateCalls = 0) :=
  ⟨by decide,
    marker_shortcircuit envWithMarkers "route: x" "alertmanager-config.yaml"
      (some ⟨true⟩) (by decide)⟩

/-- C5: every text that fails to parse yields an invalid verdict, and the parse
failure is caught inside the attempt (the embedding of `validationCheck` is a
total function — the `try/catch` of the source maps the thrown parse error to
`setConfigValid(false)`, so no exception escapes the pipeline). -/
theorem parse_failure_maps_to_invalid {δ : Type} (env : ValidationEnv δ)
    (cfg fn : String) (options : Option validationCheckOptions) (msg : String)
    (h : env.parse cfg = Except.error msg) :
    (validationCheck env cfg fn options).verdict = false := by
  unfold validationCheck
  by_cases hlen : (queriedMarkers env fn options).length = 0
  · simp [hlen, h]
  · simp [hlen]

/-- Witness for C5: a concrete unparseable text yields an invalid verdict. -/
theorem parse_failure_maps_to_invalid_witness :
    envParseFails.parse "::: not yaml" = Except.error "unexpected token" ∧
    (validationCheck envParseFails "::: not yaml" "alertmanager-config.yaml"
        none).verdict = false :=
  ⟨rfl,
    parse_failure_maps_to_invalid envParseFails "::: not yaml"
      "alertmanager-config.yaml" none "unexpected token" rfl⟩

/-- C7: with a resolved tenant, the publish button is disabled exactly when the
form status differs from "active" — for every value of the local verdict cell,
which the button predicate never reads — and publishing dispatches exactly one
update carrying the tenant name, the defaulted header, the current `configRef`
text and the form id. -/
theorem publish_active_iff_and_payload (t : Tenant) (formStatus : String)
    (rv : AlertmanagerUpdateResponse) (v : Option Bool)
    (s : EditorState) (am : Option Alertmanager) (fid : String)
    (h : t.name ≠ "") :
    (render (some t) formStatus rv v).publishDisabledOf
        = some (formStatus != "active") ∧
    (handleSave s (some t) am fid).2
        = [⟨t.name, headerOrEmpty am, s.configRef, fid⟩] := by
  constructor
  · rfl
  · simp [handleSave, h]

/-- Witness for C7: with form status "active" the button is enabled even though
the stored verdict is `some false`, and publishing dispatches the expected
payload. -/
theorem publish_active_iff_and_payload_witness :
    (render (some ⟨"dev"⟩) "active" ⟨true, none⟩ (some false)).publishDisabledOf
        = some false ∧
    (handleSave ⟨"cfg", none⟩ (some ⟨"dev"⟩) none "f1").2
        = [⟨"dev", "", "cfg", "f1"⟩] := by
  have h := publish_active_iff_and_payload ⟨"dev"⟩ "active" ⟨true, none⟩
      (some false) ⟨"cfg", none⟩ none "f1" (by decide)
  exact ⟨by simpa using h.1, by simpa [headerOrEmpty] using h.2⟩

/-- C8: the error panel renders exactly when the remote result's `success` flag
is false, and what it renders is the raw error payload of the response. -/
theorem error_panel_renders_iff_failure (r : AlertmanagerUpdateResponse) :
    ((ErrorPanel r = none) ↔ r.success = true) ∧
    (r.success = false →
      ErrorPanel r
        = some ⟨"Error: Service side validation failed", r.error_raw_response⟩) := by
  cases r with
  | mk success err => cases success <;> simp [ErrorPanel]

/-- Witness for C8: a failed publish with error payload "X" renders the panel
with content "X"; a successful publish renders no panel. -/
theorem error_panel_renders_iff_failure_witness :
    ErrorPanel ⟨false, some "X"⟩
        = some ⟨"Error: Service side validation failed", some "X"⟩ ∧
    ErrorPanel ⟨true, some "X"⟩ = none :=
  ⟨(error_panel_renders_iff_failure ⟨false, some "X"⟩).2 rfl,
    (error_panel_renders_iff_failure ⟨true, some "X"⟩).1.mpr rfl⟩

/-- C9: no observable output depends on the stored local verdict.  Two runs
that differ only in the value held by the discarded verdict state cell render
identically (same skeleton/card, same button state, same error panel) and
publish identically (same dispatched actions). -/
theorem verdict_noninterference (tenant : Option Tenant) (formStatus : String)
    (rv : AlertmanagerUpdateResponse) (v1 v2 : Option Bool) (cfg : String)
    (tnt : Option Tenant) (am : Option Alertmanager) (fid : String) :
    render tenant formStatus rv v1 = render tenant formStatus rv v2 ∧
    (handleSave ⟨cfg, v1⟩ tnt am fid).2 = (handleSave ⟨cfg, v2⟩ tnt am fid).2 := by
  constructor
  · rfl
  · cases tnt with
    | none => rfl
    | some t => by_cases h : t.name = "" <;> simp [handleSave, h]

/-- C10: publishing without a usable tenant name (absent tenant, or empty name)
dispatches nothing; otherwise it dispatches exactly one update whose header
defaults to the empty string when the alertmanager record or its header is
absent.  In every case the component state is left unchanged. -/
theorem handleSave_frame (s : EditorState) (tnt : Option Tenant)
    (am : Option Alertmanager) (fid : String) :
    (handleSave s tnt am fid).1 = s ∧
    (∀ t, tnt = some t → t.name ≠ "" →
      (handleSave s tnt am fid).2
        = [⟨t.name, headerOrEmpty am, s.configRef, fid⟩]) ∧
    ((tnt = none ∨ ∃ t, tnt = some t ∧ t.name = "") →
      (handleSave s tnt am fid).2 = []) ∧
    headerOrEmpty none = "" ∧
    (∀ a : Alertmanager, a.header = none → headerOrEmpty (some a) = "") := by
  refine ⟨?_, ?_, ?_, rfl, ?_⟩
  · cases tnt with
    | none => rfl
    | some t => by_cases h : t.name = "" <;> simp [handleSave, h]
  · intro t ht hname
    subst ht
    simp [handleSave, hname]
  · intro h
    rcases h with h | ⟨t, ht, hname⟩
    · subst h; rfl
    · subst ht; simp [handleSave, hname]
  · intro a ha
    simp [headerOrEmpty, ha]

/-- Witness for C10: with a named tenant and no alertmanager record, publish
dispatches one update with an empty header and leaves the state unchanged;
with no tenant, it dispatches nothing. -/
theorem handleSave_frame_witness :
    (handleSave ⟨"cfg", none⟩ (some ⟨"dev"⟩) none "f1").1
        = (⟨"cfg", none⟩ : EditorState) ∧
    (handleSave ⟨"cfg", none⟩ (some ⟨"dev"⟩) none "f1").2
        = [⟨"dev", "", "cfg", "f1"⟩] ∧
    (handleSave ⟨"cfg", none⟩ none none "f1").2 = [] :=
  ⟨(handleSave_frame ⟨"cfg", none⟩ (some ⟨"dev"⟩) none "f1").1,
   by
     have h := (handleSave_frame ⟨"cfg", none⟩ (some ⟨"dev"⟩) none "f1").2.1
        ⟨"dev"⟩ rfl (by decide)
     simpa [headerOrEmpty] using h,
   (handleSave_frame ⟨"cfg", none⟩ none none "f1").2.2.1 (Or.inl rfl)⟩

end AlertmanagerConfigEditorModel
